import Mathlib

/-!
Verification of the output-formatting module of aws-auto-inventory
(src/aws_auto_inventory/output/: processor.py, json_generator.py,
excel_generator.py).

Python values flowing through the module are modelled by the inductive
type `JValue` (None, bool, int, str, datetime, list, dict).  Python dicts
are modelled as insertion-ordered association lists with unique keys
(dict construction goes through `pyDictSet`, which overwrites in place).
Python operations that can raise (`len`, iteration, subscription, `in`
on unsized values) return `Option`; `none` models a raised exception.
File writes are modelled by returning the data that would be written
(sheet name / row lists for the Excel writer) instead of touching a
filesystem; wall-clock timestamps are outside the model.
-/

inductive JValue where
  | null
  | bool (b : Bool)
  | int (n : Int)
  | str (s : String)
  | datetime (s : String)
  | list (xs : List JValue)
  | dict (kvs : List (String × JValue))

mutual

def beqJValue : JValue → JValue → Bool
  | .null, .null => true
  | .bool a, .bool b => a == b
  | .int a, .int b => a == b
  | .str a, .str b => a == b
  | .datetime a, .datetime b => a == b
  | .list xs, .list ys => beqJList xs ys
  | .dict xs, .dict ys => beqJPairs xs ys
  | _, _ => false

def beqJList : List JValue → List JValue → Bool
  | [], [] => true
  | x :: xs, y :: ys => beqJValue x y && beqJList xs ys
  | _, _ => false

def beqJPairs : List (String × JValue) → List (String × JValue) → Bool
  | [], [] => true
  | (k1, v1) :: xs, (k2, v2) :: ys => k1 == k2 && beqJValue v1 v2 && beqJPairs xs ys
  | _, _ => false

end

instance : BEq JValue := ⟨beqJValue⟩

/-- One flattened spreadsheet row: an insertion-ordered mapping from column
name to value (a Python dict in the source). -/
abbrev Record := List (String × JValue)

/- Python `repr`, to the extent the module can observe it (string escaping
inside reprs is not modelled; no claim depends on repr text). -/
mutual

def pyRepr : JValue → String
  | .null => "None"
  | .bool b => if b then "True" else "False"
  | .int n => toString n
  | .str s => "'" ++ s ++ "'"
  | .datetime s => "datetime.datetime(" ++ s ++ ")"
  | .list xs => "[" ++ String.intercalate ", " (pyReprList xs) ++ "]"
  | .dict kvs => "\x7b" ++ String.intercalate ", " (pyReprPairs kvs) ++ "\x7d"

def pyReprList : List JValue → List String
  | [] => []
  | x :: xs => pyRepr x :: pyReprList xs

def pyReprPairs : List (String × JValue) → List String
  | [] => []
  | (k, v) :: xs => ("'" ++ k ++ "': " ++ pyRepr v) :: pyReprPairs xs

end

/-- Python `str(v)`. -/
def pyStr (v : JValue) : String :=
  match v with
  | .str s => s
  | .datetime s => s
  | v => pyRepr v

/-- Python truthiness, as used by `if service_result.get("success", False)`. -/
def pyTruthy : JValue → Bool
  | .null => false
  | .bool b => b
  | .int n => n != 0
  | .str s => s != ""
  | .list xs => !xs.isEmpty
  | .dict kvs => !kvs.isEmpty
  | .datetime _ => true

/-- Python `len(v)`; `none` models the `TypeError` raised on unsized values. -/
def pyLen : JValue → Option Nat
  | .list xs => some xs.length
  | .dict kvs => some kvs.length
  | .str s => some s.length
  | _ => none

/-- Python iteration `for x in v`; `none` models the `TypeError` on
non-iterables.  Iterating a dict yields its keys, a string its characters. -/
def pyIter : JValue → Option (List JValue)
  | .list xs => some xs
  | .dict kvs => some (kvs.map (fun p => JValue.str p.1))
  | .str s => some (s.data.map (fun c => JValue.str (String.mk [c])))
  | _ => none

/-- Dict lookup `d[key]` on an association list (first match, as Python dicts
built through `pyDictSet` have unique keys). -/
def dictGet (kvs : List (String × JValue)) (key : String) : Option JValue :=
  (kvs.find? (fun p => p.1 == key)).map (fun p => p.2)

/-- Substring test used by Python `needle in haystack` on strings. -/
def strIn (needle haystack : List Char) : Bool :=
  (List.range (haystack.length + 1)).any
    (fun i => (haystack.drop i).take needle.length == needle)

/-- Python `key in v` for a string key; `none` models the `TypeError` on
values that support no membership test. -/
def pyContainsStr (v : JValue) (key : String) : Option Bool :=
  match v with
  | .dict kvs => some (kvs.any (fun p => p.1 == key))
  | .list xs => some (xs.any (fun x => x == JValue.str key))
  | .str s => some (strIn key.data s.data)
  | _ => none

/-- Python subscription `v[key]` with a string key; only dicts support it. -/
def pySubscript (v : JValue) (key : String) : Option JValue :=
  match v with
  | .dict kvs => dictGet kvs key
  | _ => none

/-- Python dict assignment `d[k] = v`: overwrite in place if the key exists,
else append (insertion order preserved). -/
def pyDictSet (d : List (String × JValue)) (k : String) (v : JValue) :
    List (String × JValue) :=
  if d.any (fun p => p.1 == k) then
    d.map (fun p => if p.1 == k then (k, v) else p)
  else
    d ++ [(k, v)]

/-- Python `dict(items)`: fold the item list into a dict, later duplicates
overwriting earlier ones in place. -/
def pyDictOfList (items : List (String × JValue)) : List (String × JValue) :=
  items.foldl (fun d p => pyDictSet d p.1 p.2) []

/-- Python `set.add` on a set modelled as a duplicate-free list (so that
`len(set)` is the list length). -/
def pySetAdd (s : List JValue) (x : JValue) : List JValue :=
  if s.any (fun y => y == x) then s else s ++ [x]

/-- One element of the raw scan-result list handed to the generators: either
a ScanResult object (exposing `inventory_name` and `to_dict`) or any other
object, which lacks the `to_dict` attribute. -/
inductive ScanInput where
  | scanResult (inventory_name : String) (data : JValue)
  | raw (v : JValue)

/-- The `results` argument of the generators: either a list of result
objects or an already-keyed dictionary. -/
inductive ScanResults where
  | objects (xs : List ScanInput)
  | mapping (kvs : List (String × JValue))

namespace JSONOutputGenerator

/-- Loop body of `_process_results` (json_generator.py lines 57-66): a
ScanResult is stored under its inventory name; any other object is stored
under the placeholder key built from the current size of the accumulator. -/
def processStep (processed : List (String × JValue)) (scan_result : ScanInput) :
    List (String × JValue) :=
  match scan_result with
  | .scanResult inventory_name data => pyDictSet processed inventory_name data
  | .raw v => pyDictSet processed ("result_" ++ toString processed.length) v

/-- Embeds `JSONOutputGenerator._process_results` (json_generator.py lines 47-70). -/
def _process_results : ScanResults → List (String × JValue)
  | .objects xs => xs.foldl processStep []
  | .mapping kvs => kvs

/-- Priority-key scan of `_count_service_resources` (json_generator.py lines
180-183): first key of the fixed list present with a list value. -/
def firstListKey (kvs : List (String × JValue)) :
    List String → Option (String × List JValue)
  | [] => none
  | key :: rest =>
    match dictGet kvs key with
    | some (.list value) => some (key, value)
    | _ => firstListKey kvs rest

/-- One step of the `Reservations` special case (json_generator.py lines
186-189): a dict reservation with an `Instances` field contributes
`len(Instances)`, anything else contributes nothing. -/
def reservationStep (instance_count : Nat) (reservation : JValue) : Option Nat :=
  match reservation with
  | .dict rkvs =>
    match dictGet rkvs "Instances" with
    | some instv => do
      let n ← pyLen instv
      pure (instance_count + n)
    | none => pure instance_count
  | _ => pure instance_count

/-- Embeds `Reservations` special case of `_count_service_resources`
(json_generator.py lines 185-190). -/
def countReservationInstances (reservations : List JValue) : Option Nat :=
  reservations.foldlM reservationStep 0

/-- Fallback scan of `_count_service_resources` (json_generator.py lines
193-196): first list among the dict's values in iteration order. -/
def firstListValue : List (String × JValue) → Option (List JValue)
  | [] => none
  | (_, .list xs) :: _ => some xs
  | _ :: rest => firstListValue rest

/-- Embeds `JSONOutputGenerator._count_service_resources` (json_generator.py lines
174-198). -/
def _count_service_resources (result_data : JValue) : Option Nat :=
  match result_data with
  | .list xs => some xs.length
  | .dict kvs =>
    match firstListKey kvs
        ["Reservations", "Buckets", "Roles", "Functions", "Instances", "Items"] with
    | some (key, value) =>
      if key == "Reservations" then countReservationInstances value
      else some value.length
    | none =>
      match firstListValue kvs with
      | some xs => some xs.length
      | none => some 0
  | _ => some 0

/-- The sets and tally `_count_region_resources` mutates: the per-inventory
region and service sets and the global per-service resource tally
(`summary["services"]`). -/
structure SetsState where
  regions : List JValue
  services : List JValue
  svcSummary : List (JValue × Nat)

/-- Service-tally update (json_generator.py lines 168-170): initialize the
service's entry to 0 if absent, then add the resource count. -/
def bumpServiceSummary (d : List (JValue × Nat)) (k : JValue) (n : Nat) :
    List (JValue × Nat) :=
  let d := if d.any (fun p => p.1 == k) then d else d ++ [(k, 0)]
  d.map (fun p => if p.1 == k then (p.1, p.2 + n) else p)

/-- Loop body of `_count_region_resources` over one service result
(json_generator.py lines 156-170).  The accumulator carries the running
`total_resources` together with the mutated sets. -/
def countServiceStep (acc : Nat × SetsState) (service_result : JValue) :
    Option (Nat × SetsState) :=
  match service_result with
  | .dict kvs =>
    let service_name := (dictGet kvs "service").getD (.str "unknown")
    let st : SetsState := { acc.2 with services := pySetAdd acc.2.services service_name }
    if pyTruthy ((dictGet kvs "success").getD (.bool false))
        && (dictGet kvs "result").isSome then do
      let resource_count ← _count_service_resources ((dictGet kvs "result").getD .null)
      pure (acc.1 + resource_count,
        { st with svcSummary := bumpServiceSummary st.svcSummary service_name resource_count })
    else
      pure (acc.1, st)
  | _ => pure acc

/-- Embeds `JSONOutputGenerator._count_region_resources` (json_generator.py lines
148-172), returning the region's `total_resources` next to the mutated sets. -/
def _count_region_resources (region_result : JValue) (st : SetsState) :
    Option (Nat × SetsState) := do
  let hasRegion ← pyContainsStr region_result "region"
  let st ←
    if hasRegion then do
      let rv ← pySubscript region_result "region"
      pure { st with regions := pySetAdd st.regions rv }
    else pure st
  let hasServices ← pyContainsStr region_result "services"
  if hasServices then do
    let sv ← pySubscript region_result "services"
    let svs ← pyIter sv
    svs.foldlM countServiceStep (0, st)
  else
    pure (0, st)

/-- Embeds `JSONOutputGenerator._count_account_resources` (json_generator.py lines
141-146): organization scanning is unimplemented, the stub returns 0 and
mutates nothing. -/
def _count_account_resources (_account_result : JValue) : Nat := 0

/-- Per-inventory block of the summary (`summary["inventories"][name]`,
json_generator.py lines 133-137). -/
structure InventorySummary where
  total_resources : Nat
  regions : List JValue
  services : List JValue

/-- The summary dictionary built by `_generate_summary` (json_generator.py
lines 97-105).  The wall-clock `scan_timestamp` field is outside the model. -/
structure Summary where
  total_inventories : Nat
  total_regions : Nat
  total_services : Nat
  total_resources : Nat
  inventories : List (String × InventorySummary)
  services : List (JValue × Nat)

/-- Dict assignment for the `inventories` block. -/
def invDictSet (d : List (String × InventorySummary)) (k : String)
    (v : InventorySummary) : List (String × InventorySummary) :=
  if d.any (fun p => p.1 == k) then
    d.map (fun p => if p.1 == k then (k, v) else p)
  else
    d ++ [(k, v)]

/-- Loop body of `_generate_summary` over one `(inventory_name,
inventory_data)` entry (json_generator.py lines 108-137). -/
def summStep (acc : Summary) (entry : String × JValue) : Option Summary :=
  match entry.2 with
  | .dict inv =>
    let withInv (resources : Nat) (regions services : List JValue)
        (svcSum : List (JValue × Nat)) : Summary :=
      { total_inventories := acc.total_inventories + 1
        total_regions := acc.total_regions + regions.length
        total_services := acc.total_services + services.length
        total_resources := acc.total_resources + resources
        inventories := invDictSet acc.inventories entry.1 ⟨resources, regions, services⟩
        services := svcSum }
    match dictGet inv "organization_results" with
    | some org => do
      let accounts ← pyIter org
      let resources := accounts.foldl (fun n a => n + _count_account_resources a) 0
      pure (withInv resources [] [] acc.services)
    | none =>
      match dictGet inv "account_results" with
      | some ar => do
        let region_results ← pyIter ar
        let rst ← region_results.foldlM
          (fun (p : Nat × SetsState) rr => do
            let q ← _count_region_resources rr p.2
            pure (p.1 + q.1, q.2))
          (0, ⟨[], [], acc.services⟩)
        pure (withInv rst.1 rst.2.regions rst.2.services rst.2.svcSummary)
      | none => pure (withInv 0 [] [] acc.services)
  | _ => pure acc

/-- Embeds `JSONOutputGenerator._generate_summary` (json_generator.py lines
87-139). -/
def _generate_summary (results : List (String × JValue)) : Option Summary :=
  results.foldlM summStep ⟨0, 0, 0, 0, [], []⟩

end JSONOutputGenerator

namespace ExcelOutputGenerator

/-- Embeds `ExcelOutputGenerator._process_results` (excel_generator.py lines 55-78)
is a verbatim duplicate of `JSONOutputGenerator._process_results`. -/
def _process_results : ScanResults → List (String × JValue) :=
  JSONOutputGenerator._process_results

/-- Embeds `ExcelOutputGenerator._count_service_resources` (excel_generator.py lines
153-177) is a verbatim duplicate of
`JSONOutputGenerator._count_service_resources`. -/
def _count_service_resources : JValue → Option Nat :=
  JSONOutputGenerator._count_service_resources

mutual

/-- Per-value branch of `_flatten_dict` (excel_generator.py lines 300-317):
nested dicts are flattened recursively under the extended key, lists and
datetimes are serialized to their string form, everything else passes
through unchanged. -/
def flattenValueItems (sep new_key : String) (v : JValue) : List (String × JValue) :=
  match v with
  | .dict kvs => pyDictOfList (flattenDictItems sep new_key kvs)
  | .list xs => [(new_key, .str (pyStr (.list xs)))]
  | .datetime s => [(new_key, .str s)]
  | v => [(new_key, v)]

/-- Item accumulation of `_flatten_dict` over the entries of a dict
(excel_generator.py lines 299-317); the recursive call's result stands for
`self._flatten_dict(v, new_key, sep=sep).items()`. -/
def flattenDictItems (sep parent_key : String) :
    List (String × JValue) → List (String × JValue)
  | [] => []
  | (k, v) :: rest =>
    flattenValueItems sep (if parent_key ≠ "" then parent_key ++ sep ++ k else k) v
    ++ flattenDictItems sep parent_key rest

end

/-- Embeds `ExcelOutputGenerator._flatten_dict` (excel_generator.py lines 285-318):
`dict(items)` over the accumulated items. -/
def _flatten_dict (d : List (String × JValue)) (parent_key : String)
    (sep : String) : List (String × JValue) :=
  pyDictOfList (flattenDictItems sep parent_key d)

/-- The row built for one dict resource (excel_generator.py lines 240-245
and analogous sites): the dict literal with the three context columns
followed by the splatted flattened resource. -/
def contextRow (inventory : String) (region service : JValue)
    (resource_kvs : List (String × JValue)) : Record :=
  pyDictOfList ([("Inventory", .str inventory), ("Region", region), ("Service", service)]
    ++ _flatten_dict resource_kvs "" "_")

/-- Embeds `ExcelOutputGenerator._flatten_service_result` (excel_generator.py lines
221-283).  `none` models a raised exception (iterating a non-iterable
`Reservations` or `Instances` value). -/
def _flatten_service_result (result_data : JValue) (inventory : String)
    (region service : JValue) : Option (List Record) :=
  match result_data with
  | .list xs =>
    pure (xs.map (fun resource =>
      match resource with
      | .dict kvs => contextRow inventory region service kvs
      | r =>
        [("Inventory", .str inventory), ("Region", region), ("Service", service),
         ("Resource", .str (pyStr r))]))
  | .dict kvs =>
    if service == .str "ec2" && kvs.any (fun p => p.1 == "Reservations") then do
      let reservations ← pyIter ((dictGet kvs "Reservations").getD .null)
      reservations.foldlM
        (fun acc reservation =>
          match reservation with
          | .dict rkvs =>
            match dictGet rkvs "Instances" with
            | some instv => do
              let instances ← pyIter instv
              pure (acc ++ instances.filterMap (fun inst =>
                match inst with
                | .dict ikvs => some (contextRow inventory region service ikvs)
                | _ => none))
            | none => pure acc
          | _ => pure acc)
        []
    else
      pure (kvs.foldl
        (fun acc p =>
          match p.2 with
          | .list items =>
            acc ++ items.filterMap (fun item =>
              match item with
              | .dict ikvs => some (contextRow inventory region service ikvs)
              | _ => none)
          | _ => acc)
        [])
  | _ => pure []

/-- Loop body of `_extract_service_data` over one service result
(excel_generator.py lines 204-217). -/
def extractServiceStep (inventory : String) (region_name : JValue)
    (sd : List (JValue × List Record)) (service_result : JValue) :
    Option (List (JValue × List Record)) :=
  match service_result with
  | .dict kvs =>
    let service_name := (dictGet kvs "service").getD (.str "unknown")
    if pyTruthy ((dictGet kvs "success").getD (.bool false))
        && (dictGet kvs "result").isSome then do
      let sd := if sd.any (fun p => p.1 == service_name) then sd
                else sd ++ [(service_name, [])]
      let resources ← _flatten_service_result ((dictGet kvs "result").getD .null)
        inventory region_name service_name
      pure (sd.map (fun p =>
        if p.1 == service_name then (p.1, p.2 ++ resources) else p))
    else
      pure sd
  | _ => pure sd

/-- Loop body of `_extract_service_data` over one region result
(excel_generator.py lines 199-217). -/
def extractRegionStep (inventory : String) (sd : List (JValue × List Record))
    (region_result : JValue) : Option (List (JValue × List Record)) :=
  match region_result with
  | .dict rkvs =>
    match dictGet rkvs "region" with
    | some region_name =>
      match dictGet rkvs "services" with
      | some sv => do
        let svs ← pyIter sv
        svs.foldlM (extractServiceStep inventory region_name) sd
      | none => pure sd
    | none => pure sd
  | _ => pure sd

/-- Loop body of `_extract_service_data` over one inventory entry
(excel_generator.py lines 191-217); the organization branch is a `pass`. -/
def extractInventoryStep (sd : List (JValue × List Record))
    (entry : String × JValue) : Option (List (JValue × List Record)) :=
  match entry.2 with
  | .dict inv =>
    match dictGet inv "organization_results" with
    | some _ => pure sd
    | none =>
      match dictGet inv "account_results" with
      | some ar => do
        let rrs ← pyIter ar
        rrs.foldlM (extractRegionStep entry.1) sd
      | none => pure sd
  | _ => pure sd

/-- Embeds `ExcelOutputGenerator._extract_service_data` (excel_generator.py lines
179-219). -/
def _extract_service_data (results : List (String × JValue)) :
    Option (List (JValue × List Record)) :=
  results.foldlM extractInventoryStep []

/-- Loop body of `_create_summary_dataframe` over one service result
(excel_generator.py lines 133-149). -/
def summaryRowStep (inventory : String) (region_name : JValue)
    (rows : List Record) (service_result : JValue) : Option (List Record) :=
  match service_result with
  | .dict kvs =>
    let service_name := (dictGet kvs "service").getD (.str "unknown")
    let success := (dictGet kvs "success").getD (.bool false)
    do
      let resource_count ←
        if pyTruthy success && (dictGet kvs "result").isSome then
          _count_service_resources ((dictGet kvs "result").getD .null)
        else pure 0
      pure (rows ++ [[("Inventory", .str inventory), ("Region", region_name),
        ("Service", service_name), ("Resource Count", .int resource_count),
        ("Status", .str (if pyTruthy success then "Success" else "Failed"))]])
  | _ => pure rows

/-- Loop body of `_create_summary_dataframe` over one region result
(excel_generator.py lines 128-149). -/
def summaryRegionStep (inventory : String) (rows : List Record)
    (region_result : JValue) : Option (List Record) :=
  match region_result with
  | .dict rkvs =>
    match dictGet rkvs "region" with
    | some region_name =>
      match dictGet rkvs "services" with
      | some sv => do
        let svs ← pyIter sv
        svs.foldlM (summaryRowStep inventory region_name) rows
      | none => pure rows
    | none => pure rows
  | _ => pure rows

/-- Loop body of `_create_summary_dataframe` over one inventory entry
(excel_generator.py lines 120-149). -/
def summaryInventoryStep (rows : List Record) (entry : String × JValue) :
    Option (List Record) :=
  match entry.2 with
  | .dict inv =>
    match dictGet inv "organization_results" with
    | some _ => pure rows
    | none =>
      match dictGet inv "account_results" with
      | some ar => do
        let rrs ← pyIter ar
        rrs.foldlM (summaryRegionStep entry.1) rows
      | none => pure rows
  | _ => pure rows

/-- Embeds `ExcelOutputGenerator._create_summary_dataframe` (excel_generator.py
lines 108-151), as the list of rows of the resulting DataFrame. -/
def _create_summary_dataframe (results : List (String × JValue)) :
    Option (List Record) :=
  results.foldlM summaryInventoryStep []

/-- The list of characters replaced by `_sanitize_sheet_name`
(excel_generator.py line 331); each entry of the source's `invalid_chars`
is a single-character string, so `str.replace` acts character-wise. -/
def invalid_chars : List Char := ['\\', '/', '*', '[', ']', ':', '?']

/-- Embeds `ExcelOutputGenerator._sanitize_sheet_name` (excel_generator.py lines
320-341): replace each invalid character in turn, then truncate to 31
characters if longer. -/
def _sanitize_sheet_name (name : String) : String :=
  let sanitized := invalid_chars.foldl
    (fun s c => s.map (fun x => if x = c then '_' else x)) name.data
  String.mk (if sanitized.length > 31 then sanitized.take 31 else sanitized)

/-- Embeds `ExcelOutputGenerator._write_excel_file` (excel_generator.py lines
80-106), as the list of (sheet name, rows) pairs written to the workbook:
the Summary sheet first, then one sheet per service with a nonempty
resource list.  `none` models a raised exception (including
`_sanitize_sheet_name` applied to a non-string service name). -/
def _write_excel_file (results : List (String × JValue)) :
    Option (List (String × List Record)) := do
  let summary ← _create_summary_dataframe results
  let service_data ← _extract_service_data results
  let sheets ← service_data.foldlM
    (fun acc p =>
      if !p.2.isEmpty then do
        let sheet_name ←
          match p.1 with
          | .str s => some (_sanitize_sheet_name s)
          | _ => none
        pure (acc ++ [(sheet_name, p.2)])
      else pure acc)
    []
  pure (("Summary", summary) :: sheets)

/-- The `ImportError` message of `ExcelOutputGenerator.generate`
(excel_generator.py line 39). -/
def pandasImportError : String :=
  "pandas is required for Excel output. Install with: pip install pandas openpyxl"

/-- Embeds `ExcelOutputGenerator.generate` (excel_generator.py lines 29-53),
parameterized by the start-up capability flag `PANDAS_AVAILABLE`
(excel_generator.py lines 9-14).  The result is the workbook content that
would be written; `Except.error` models a raised exception, and an error
raised before `_write_excel_file` means no file is created or written. -/
def generate (pandasAvailable : Bool) (results : ScanResults) :
    Except String (List (String × List Record)) :=
  if !pandasAvailable then
    .error pandasImportError
  else
    match _write_excel_file (_process_results results) with
    | some sheets => .ok sheets
    | none => .error "TypeError"

end ExcelOutputGenerator

namespace OutputProcessor

/-- Observable effects of `OutputProcessor.process` (processor.py lines
23-43): directory creation, the info log, one generator call per recognized
format, and one warning per unrecognized format. -/
inductive ProcAction where
  | makedirs (output_dir : String)
  | logInfo
  | callJson
  | callExcel
  | warnUnknown (format_type : String)
deriving DecidableEq

/-- Dispatch of one entry of `formats` (processor.py lines 37-43). -/
def dispatchStep (format_type : String) : ProcAction :=
  if format_type == "json" then ProcAction.callJson
  else if format_type == "excel" then ProcAction.callExcel
  else ProcAction.warnUnknown format_type

/-- Embeds `OutputProcessor.process` (processor.py lines 23-43), as the ordered
trace of its observable effects. -/
def process (_results : ScanResults) (output_dir : String)
    (formats : List String) : List ProcAction :=
  ProcAction.makedirs output_dir :: ProcAction.logInfo :: formats.map dispatchStep

end OutputProcessor

/-- Follows the spec's words for sheet-name sanitization: replace each
occurrence of the forbidden characters by an underscore (simultaneously,
character by character) and truncate to at most 31 characters. -/
def sanitizeSheetNameSpec (name : String) : String :=
  String.mk ((name.data.map
    (fun x => if x ∈ ExcelOutputGenerator.invalid_chars then '_' else x)).take 31)

/-- A reservation entry whose nested `Instances` field, when present, holds a
sequence — the shape the claim about the `Reservations` special case talks
about. -/
def instancesWellFormed (reservation : JValue) : Bool :=
  match reservation with
  | .dict rkvs =>
    match dictGet rkvs "Instances" with
    | some (.list _) => true
    | some _ => false
    | none => true
  | _ => true

/-- The per-entry contribution the claim about the `Reservations` special
case predicts: the length of the entry's nested `Instances` sequence,
0 for entries lacking that field (or that are not mappings). -/
def nestedInstanceCount (reservation : JValue) : Nat :=
  match reservation with
  | .dict rkvs =>
    match dictGet rkvs "Instances" with
    | some (.list instances) => instances.length
    | _ => 0
  | _ => 0

/-- Reservations holding 2 and 3 nested instances respectively. -/
def c3rs : List JValue :=
  [.dict [("Instances", .list [.dict [], .dict []])],
   .dict [("Instances", .list [.dict [], .dict [], .int 5])]]

/-- A mapping payload whose matched priority key is `Reservations`. -/
def c3kvs : List (String × JValue) := [("Reservations", .list c3rs)]

/-- The 2-element sequence-of-mappings payload of the end-to-end scenario. -/
def c2payload : JValue :=
  .list [.dict [("Name", .str "bucket1")], .dict [("Name", .str "bucket2")]]

/-- The end-to-end input: one inventory, one region "us-east-1", one
successful service "storage-buckets" with a 2-element payload. -/
def c2results : List (String × JValue) :=
  [("inv1", .dict [("account_results", .list [.dict
     [("region", .str "us-east-1"),
      ("services", .list [.dict [("service", .str "storage-buckets"),
        ("success", .bool true), ("result", c2payload)]])]])])]

/-- The flat mapping with one nested mapping field from the flattener claim. -/
def c4payload : JValue := .dict [("a", .int 1), ("b", .dict [("c", .int 2)])]

/-- A failed service result with a non-trivial payload. -/
def c1kvs : List (String × JValue) :=
  [("service", .str "ec2"), ("success", .bool false),
   ("result", .list [.int 1, .int 2])]

/-- Two ScanResult objects sharing one inventory name followed by an object
without `to_dict`: the third object sits at input position 2 but the
output mapping holds only one entry when it is processed. -/
def c6inputs : List ScanInput :=
  [.scanResult "x" .null, .scanResult "x" .null, .raw (.int 7)]

theorem foldl_replaceChar_eq_map (cs : List Char) (h : '_' ∉ cs) :
    ∀ l : List Char,
      cs.foldl (fun s c => s.map (fun x => if x = c then '_' else x)) l
        = l.map (fun x => if x ∈ cs then '_' else x) := by
  induction cs with
  | nil =>
    intro l
    simp
  | cons c cs ih =>
    intro l
    have h' : '_' ∉ cs := fun hc => h (List.mem_cons_of_mem _ hc)
    rw [List.foldl_cons, ih h', List.map_map]
    refine List.map_congr_left ?_
    intro x _
    by_cases hxc : x = c
    · subst hxc
      simp
    · simp [Function.comp, hxc, List.mem_cons]

theorem sanitize_eq_simultaneous (name : String) :
    ExcelOutputGenerator._sanitize_sheet_name name = sanitizeSheetNameSpec name := by
  unfold ExcelOutputGenerator._sanitize_sheet_name sanitizeSheetNameSpec
  dsimp only
  rw [foldl_replaceChar_eq_map ExcelOutputGenerator.invalid_chars (by decide) name.data]
  split
  · rfl
  · next h => rw [List.take_of_length_le (Nat.le_of_not_lt h)]

theorem sanitize_length_le (name : String) :
    (ExcelOutputGenerator._sanitize_sheet_name name).length ≤ 31 := by
  rw [sanitize_eq_simultaneous]
  show (List.take 31 _).length ≤ 31
  rw [List.length_take]
  exact Nat.min_le_left _ _

theorem sanitize_all_valid (name : String) :
    ((ExcelOutputGenerator._sanitize_sheet_name name).data.all
      (fun c => !ExcelOutputGenerator.invalid_chars.contains c)) = true := by
  rw [sanitize_eq_simultaneous]
  rw [List.all_eq_true]
  intro c hc
  have hc' := List.mem_of_mem_take hc
  obtain ⟨x, _, hfx⟩ := List.mem_map.mp hc'
  by_cases hxm : x ∈ ExcelOutputGenerator.invalid_chars
  · rw [if_pos hxm] at hfx
    subst hfx
    decide
  · rw [if_neg hxm] at hfx
    subst hfx
    simp only [Bool.not_eq_eq_eq_not, Bool.not_true, ← Bool.not_eq_true]
    intro hcontra
    exact hxm (List.elem_iff.mp hcontra)

/-- C5: for every input string, the sanitized sheet name is obtained by
replacing each occurrence of the characters \ / * [ ] : ? with an underscore
and truncating to at most 31 characters, so the result has length at most 31
and contains none of those forbidden characters. -/
theorem C5_sanitize_sheet_name (name : String) :
    ExcelOutputGenerator._sanitize_sheet_name name = sanitizeSheetNameSpec name
    ∧ (ExcelOutputGenerator._sanitize_sheet_name name).length ≤ 31
    ∧ ((ExcelOutputGenerator._sanitize_sheet_name name).data.all
        (fun c => !ExcelOutputGenerator.invalid_chars.contains c)) = true :=
  ⟨sanitize_eq_simultaneous name, sanitize_length_le name, sanitize_all_valid name⟩

theorem sanitize_fixed_of_valid (r : String) (hlen : r.length ≤ 31)
    (hval : (r.data.all (fun c => !ExcelOutputGenerator.invalid_chars.contains c)) = true) :
    ExcelOutputGenerator._sanitize_sheet_name r = r := by
  rw [sanitize_eq_simultaneous]
  unfold sanitizeSheetNameSpec
  have hmap : r.data.map
      (fun x => if x ∈ ExcelOutputGenerator.invalid_chars then '_' else x) = r.data := by
    have : ∀ x ∈ r.data,
        (if x ∈ ExcelOutputGenerator.invalid_chars then '_' else x) = x := by
      intro x hx
      have := List.all_eq_true.mp hval x hx
      have hall := List.all_eq_true.mp hval x hx
      rw [if_neg]
      intro hcontra
      have hc : ExcelOutputGenerator.invalid_chars.contains x = true :=
        List.elem_iff.mpr hcontra
      rw [hc] at hall
      exact absurd hall (by decide)
    rw [List.map_congr_left this]
    exact List.map_id' r.data
  rw [hmap, List.take_of_length_le hlen]

/-- C10: sheet-name sanitization is idempotent — applying the sanitizer to
its own output returns that output unchanged. -/
theorem C10_sanitize_idempotent (name : String) :
    ExcelOutputGenerator._sanitize_sheet_name (ExcelOutputGenerator._sanitize_sheet_name name)
      = ExcelOutputGenerator._sanitize_sheet_name name :=
  sanitize_fixed_of_valid _ (sanitize_length_le name) (sanitize_all_valid name)

theorem foldlM_reservationStep (rs : List JValue)
    (h : ∀ r ∈ rs, instancesWellFormed r = true) :
    ∀ acc : Nat,
      List.foldlM JSONOutputGenerator.reservationStep acc rs
        = some (rs.foldl (fun a r => a + nestedInstanceCount r) acc) := by
  induction rs with
  | nil =>
    intro acc
    rfl
  | cons r rs ih =>
    intro acc
    have hr : instancesWellFormed r = true := h r (List.mem_cons_self _ _)
    have hstep : JSONOutputGenerator.reservationStep acc r
        = some (acc + nestedInstanceCount r) := by
      cases r with
      | dict rkvs =>
        simp only [JSONOutputGenerator.reservationStep, nestedInstanceCount]
        cases hI : dictGet rkvs "Instances" with
        | none => simp
        | some v =>
          simp only [instancesWellFormed, hI] at hr
          cases v <;> simp_all [pyLen]
      | null => simp [JSONOutputGenerator.reservationStep, nestedInstanceCount]
      | bool b => simp [JSONOutputGenerator.reservationStep, nestedInstanceCount]
      | int n => simp [JSONOutputGenerator.reservationStep, nestedInstanceCount]
      | str s => simp [JSONOutputGenerator.reservationStep, nestedInstanceCount]
      | datetime s => simp [JSONOutputGenerator.reservationStep, nestedInstanceCount]
      | list xs => simp [JSONOutputGenerator.reservationStep, nestedInstanceCount]
    rw [List.foldlM_cons, hstep, List.foldl_cons]
    exact ih (fun x hx => h x (List.mem_cons_of_mem _ hx)) (acc + nestedInstanceCount r)

/-- C3: on a mapping payload whose matched priority key is `Reservations`
with a sequence value (all nested `Instances` fields being sequences), the
counter returns the sum over the reservations of the length of each one's
nested `Instances` sequence, entries lacking that field contributing 0; the
Excel generator's counter is the same function. -/
theorem C3_reservations_instance_count (kvs : List (String × JValue)) (rs : List JValue)
    (hres : dictGet kvs "Reservations" = some (JValue.list rs))
    (hwf : rs.all instancesWellFormed = true) :
    JSONOutputGenerator._count_service_resources (.dict kvs)
      = some (rs.foldl (fun a r => a + nestedInstanceCount r) 0)
    ∧ ExcelOutputGenerator._count_service_resources (.dict kvs)
      = JSONOutputGenerator._count_service_resources (.dict kvs) := by
  refine ⟨?_, rfl⟩
  simp only [JSONOutputGenerator._count_service_resources, JSONOutputGenerator.firstListKey,
    hres, beq_self_eq_true, if_true]
  exact foldlM_reservationStep rs (fun r hr => List.all_eq_true.mp hwf r hr) 0

/-- Witness for C3: reservations holding 2 and 3 nested instances yield a
count of 5, which differs from the number (2) of top-level entries. -/
theorem C3_witness :
    dictGet c3kvs "Reservations" = some (JValue.list c3rs)
    ∧ JSONOutputGenerator._count_service_resources (.dict c3kvs) = some 5
    ∧ c3rs.length = 2 :=
  ⟨rfl, (C3_reservations_instance_count c3kvs c3rs rfl rfl).1, rfl⟩

/-- C1: a Service Result whose success flag is false adds nothing to the
running resource total and to the per-service tally in summary counting, and
the flattener path of `_extract_service_data` produces no Resource Records
for it, whatever its result payload holds. -/
theorem C1_failed_service_contributes_nothing
    (kvs : List (String × JValue)) (n : Nat) (st : JSONOutputGenerator.SetsState)
    (sd : List (JValue × List Record)) (inventory : String) (region_name : JValue)
    (h : dictGet kvs "success" = some (JValue.bool false)) :
    JSONOutputGenerator.countServiceStep (n, st) (.dict kvs)
      = some (n, { st with
          services := pySetAdd st.services ((dictGet kvs "service").getD (.str "unknown")) })
    ∧ ExcelOutputGenerator.extractServiceStep inventory region_name sd (.dict kvs)
      = some sd := by
  constructor
  · simp [JSONOutputGenerator.countServiceStep, h, pyTruthy]
  · simp [ExcelOutputGenerator.extractServiceStep, h, pyTruthy]

/-- Witness for C1: a concrete failed service result with a nonempty
payload contributes no resources and no records. -/
theorem C1_witness :
    dictGet c1kvs "success" = some (JValue.bool false)
    ∧ (JSONOutputGenerator.countServiceStep (0, ⟨[], [], []⟩) (.dict c1kvs)
        = some (0, ⟨[], [JValue.str "ec2"], []⟩)
      ∧ ExcelOutputGenerator.extractServiceStep "inv" (.str "us-east-1") [] (.dict c1kvs)
        = some []) :=
  ⟨rfl, C1_failed_service_contributes_nothing c1kvs 0 ⟨[], [], []⟩ [] "inv"
    (.str "us-east-1") rfl⟩

/-- C9: on a sequence payload the flattener produces exactly one Resource
Record per element — mapping or not — so its record count agrees with the
counter, both equalling the sequence's length. -/
theorem C9_list_payload_agreement (xs : List JValue) (inventory : String)
    (region service : JValue) :
    (ExcelOutputGenerator._flatten_service_result (.list xs) inventory region service).map
        List.length = some xs.length
    ∧ ExcelOutputGenerator._count_service_resources (.list xs) = some xs.length := by
  refine ⟨?_, rfl⟩
  simp [ExcelOutputGenerator._flatten_service_result]

/-- Counterexample for C2: on the end-to-end input the workbook's sheets
are exactly "Summary" and "storage-buckets" — the sanitizer leaves the
hyphen alone, so no sheet named "storage_buckets" exists. -/
theorem C2_counterexample :
    (ExcelOutputGenerator._write_excel_file c2results).map
        (fun sheets => sheets.map Prod.fst)
      = some ["Summary", "storage-buckets"]
    ∧ ((ExcelOutputGenerator._write_excel_file c2results).getD []).any
        (fun p => p.1 == "storage_buckets") = false :=
  ⟨rfl, rfl⟩

/-- C2 (amended): on the end-to-end input the summary reports
total_resources = 2, total_regions = 1 and total_services = 1, and the
tabular writer produces a sheet named "storage-buckets" with 2 rows. -/
theorem C2_amended_end_to_end :
    (JSONOutputGenerator._generate_summary c2results).map
        (fun s => (s.total_resources, s.total_regions, s.total_services))
      = some (2, 1, 1)
    ∧ (ExcelOutputGenerator._write_excel_file c2results).map
        (fun sheets => sheets.map (fun p => (p.1, p.2.length)))
      = some [("Summary", 1), ("storage-buckets", 2)] :=
  ⟨rfl, rfl⟩

/-- Counterexample for C4: on the payload with keys a and b_c the flattener
returns no Resource Records at all (the mapping has no sequence-valued
field), not one record. -/
theorem C4_counterexample :
    ExcelOutputGenerator._flatten_service_result c4payload "inv" (.str "us-east-1")
      (.str "storage-buckets") = some [] := rfl

/-- C4 (amended): the flattener yields the record with columns Inventory,
Region, Service, a = 1 and b_c = 2 only when the mapping arrives as an
element of a sequence payload; on the bare mapping payload it yields no
records. -/
theorem C4_amended_flatten (inventory : String) (region service : JValue) :
    ExcelOutputGenerator._flatten_service_result (.list [c4payload]) inventory region service
      = some [[("Inventory", .str inventory), ("Region", region), ("Service", service),
          ("a", .int 1), ("b_c", .int 2)]]
    ∧ ExcelOutputGenerator._flatten_service_result c4payload inventory region service
      = some [] := by
  constructor
  · rfl
  · simp [c4payload, ExcelOutputGenerator._flatten_service_result]

/-- Counterexample for C6: the object without `to_dict` sits at input
position 2, yet it is stored under "result_1" (the output mapping holds a
single entry when it is reached), and no key "result_2" exists. -/
theorem C6_counterexample :
    JSONOutputGenerator._process_results (.objects c6inputs)
      = [("x", JValue.null), ("result_1", JValue.int 7)]
    ∧ (JSONOutputGenerator._process_results (.objects c6inputs)).any
        (fun p => p.1 == "result_2") = false :=
  ⟨rfl, rfl⟩

theorem any_key_pyDictSet_self (d : List (String × JValue)) (k : String) (v : JValue) :
    (pyDictSet d k v).any (fun p => p.1 == k) = true := by
  unfold pyDictSet
  by_cases h : d.any (fun p => p.1 == k)
  · rw [if_pos h, List.any_map]
    obtain ⟨p, hp, hpk⟩ := List.any_eq_true.mp h
    refine List.any_eq_true.mpr ⟨p, hp, ?_⟩
    simp [Function.comp, hpk]
  · rw [if_neg h, List.any_append]
    simp

theorem any_key_pyDictSet_mono (d : List (String × JValue)) (k' : String) (v : JValue)
    (k : String) (h : d.any (fun p => p.1 == k) = true) :
    (pyDictSet d k' v).any (fun p => p.1 == k) = true := by
  unfold pyDictSet
  by_cases h' : d.any (fun p => p.1 == k')
  · rw [if_pos h', List.any_map]
    obtain ⟨p, hp, hpk⟩ := List.any_eq_true.mp h
    refine List.any_eq_true.mpr ⟨p, hp, ?_⟩
    by_cases hpk' : (p.1 == k') = true
    · have e1 : p.1 = k' := eq_of_beq hpk'
      simp only [Function.comp, hpk', if_true]
      rw [← e1]
      exact hpk
    · simp [Function.comp, hpk', hpk]
  · rw [if_neg h', List.any_append, h]
    simp

theorem any_key_processStep_mono (d : List (String × JValue)) (a : ScanInput)
    (k : String) (h : d.any (fun p => p.1 == k) = true) :
    (JSONOutputGenerator.processStep d a).any (fun p => p.1 == k) = true := by
  cases a with
  | scanResult name data => exact any_key_pyDictSet_mono d name data k h
  | raw v => exact any_key_pyDictSet_mono d _ v k h

theorem any_key_foldl_processStep (k : String) (post : List ScanInput) :
    ∀ d : List (String × JValue), d.any (fun p => p.1 == k) = true →
      (post.foldl JSONOutputGenerator.processStep d).any (fun p => p.1 == k) = true := by
  induction post with
  | nil =>
    intro d h
    exact h
  | cons a post ih =>
    intro d h
    exact ih _ (any_key_processStep_mono d a k h)

/-- C6 (amended): an object lacking `to_dict` at any position of the input
sequence is inserted, without any failure, under the placeholder key
result_n where n is the number of entries already in the output mapping —
that key is still present in the final mapping — and n equals the object's
input position only when every earlier object contributed a distinct new
key. -/
theorem C6_amended_placeholder_key (pre : List ScanInput) (v : JValue)
    (post : List ScanInput) :
    JSONOutputGenerator._process_results (.objects (pre ++ .raw v :: post))
      = post.foldl JSONOutputGenerator.processStep
          (pyDictSet (JSONOutputGenerator._process_results (.objects pre))
            ("result_" ++ toString (JSONOutputGenerator._process_results (.objects pre)).length)
            v)
    ∧ (JSONOutputGenerator._process_results (.objects (pre ++ .raw v :: post))).any
        (fun p => p.1
          == "result_" ++ toString (JSONOutputGenerator._process_results (.objects pre)).length)
      = true := by
  have h1 : JSONOutputGenerator._process_results (.objects (pre ++ .raw v :: post))
      = post.foldl JSONOutputGenerator.processStep
          (pyDictSet (JSONOutputGenerator._process_results (.objects pre))
            ("result_" ++ toString (JSONOutputGenerator._process_results (.objects pre)).length)
            v) := by
    show (pre ++ .raw v :: post).foldl JSONOutputGenerator.processStep [] = _
    rw [List.foldl_append, List.foldl_cons]
    rfl
  refine ⟨h1, ?_⟩
  rw [h1]
  exact any_key_foldl_processStep _ post _ (any_key_pyDictSet_self _ _ _)

theorem count_dispatch_callJson (formats : List String) :
    (formats.map OutputProcessor.dispatchStep).count OutputProcessor.ProcAction.callJson
      = formats.count "json" := by
  induction formats with
  | nil => rfl
  | cons f fs ih =>
    by_cases hf : f = "json"
    · subst hf
      simp [List.count_cons, ih, OutputProcessor.dispatchStep]
    · by_cases hf2 : f = "excel"
      · subst hf2
        simp [List.count_cons, ih, OutputProcessor.dispatchStep]
      · simp [List.count_cons, ih, OutputProcessor.dispatchStep, hf, hf2]

theorem count_dispatch_callExcel (formats : List String) :
    (formats.map OutputProcessor.dispatchStep).count OutputProcessor.ProcAction.callExcel
      = formats.count "excel" := by
  induction formats with
  | nil => rfl
  | cons f fs ih =>
    by_cases hf : f = "json"
    · subst hf
      simp [List.count_cons, ih, OutputProcessor.dispatchStep]
    · by_cases hf2 : f = "excel"
      · subst hf2
        simp [List.count_cons, ih, OutputProcessor.dispatchStep]
      · simp [List.count_cons, ih, OutputProcessor.dispatchStep, hf, hf2]

/-- C7: an unrecognized format identifier in a process call only produces a
warning — no generator call and no file for it, with nothing raised — while
every occurrence of the recognized identifiers in the same call still
invokes the corresponding writer. -/
theorem C7_unknown_format_skipped (results : ScanResults) (output_dir : String)
    (formats : List String) (format_type : String)
    (hmem : format_type ∈ formats)
    (h1 : format_type ≠ "json") (h2 : format_type ≠ "excel") :
    OutputProcessor.ProcAction.warnUnknown format_type
      ∈ OutputProcessor.process results output_dir formats
    ∧ (OutputProcessor.process results output_dir formats).count
        OutputProcessor.ProcAction.callJson = formats.count "json"
    ∧ (OutputProcessor.process results output_dir formats).count
        OutputProcessor.ProcAction.callExcel = formats.count "excel" := by
  unfold OutputProcessor.process
  refine ⟨?_, ?_, ?_⟩
  · refine List.mem_cons_of_mem _ (List.mem_cons_of_mem _ ?_)
    refine List.mem_map.mpr ⟨format_type, hmem, ?_⟩
    simp [OutputProcessor.dispatchStep, h1, h2]
  · rw [List.count_cons, List.count_cons, count_dispatch_callJson]
    simp
  · rw [List.count_cons, List.count_cons, count_dispatch_callExcel]
    simp

/-- Witness for C7: a call with formats ["json", "bogus", "excel"] warns on
"bogus" and still calls both writers once. -/
theorem C7_witness :
    "bogus" ∈ ["json", "bogus", "excel"]
    ∧ ("bogus" : String) ≠ "json" ∧ ("bogus" : String) ≠ "excel"
    ∧ (OutputProcessor.ProcAction.warnUnknown "bogus"
        ∈ OutputProcessor.process (.mapping []) "out" ["json", "bogus", "excel"]
      ∧ (OutputProcessor.process (.mapping []) "out" ["json", "bogus", "excel"]).count
          OutputProcessor.ProcAction.callJson
        = (["json", "bogus", "excel"] : List String).count "json"
      ∧ (OutputProcessor.process (.mapping []) "out" ["json", "bogus", "excel"]).count
          OutputProcessor.ProcAction.callExcel
        = (["json", "bogus", "excel"] : List String).count "excel") :=
  ⟨by decide, by decide, by decide,
    C7_unknown_format_skipped (.mapping []) "out" ["json", "bogus", "excel"] "bogus"
      (by decide) (by decide) (by decide)⟩

/-- C8: with the tabular dependency unavailable, every invocation of the
tabular writer raises the capability-missing error with its actionable
message before any output is produced — the writer returns the error and no
workbook content, for every input. -/
theorem C8_pandas_missing_error (results : ScanResults) :
    ExcelOutputGenerator.generate false results
      = Except.error
          "pandas is required for Excel output. Install with: pip install pandas openpyxl" :=
  rfl
